import Mathlib

set_option maxRecDepth 40000

/-!
Shallow embedding of the AI Workflow Engine worker (`src/index.ts`).

The only decision logic in the repository is the `/api/workflow` POST
handler in `src/index.ts`, together with its helpers `getCached`,
`setCache` and `getGistConfig`.  We embed that handler as a pure
function `handleWorkflow` over an explicit state (the in-memory cache
map and the KV "ledger"), with the outcomes of the external calls
(GitHub gist fetch, `env.AI.run`, KV `put`) supplied as oracle values,
and an `Effects` record reporting which external calls were made and
with which arguments.
-/

namespace WorkflowEngine

/-- JSON values.  TypeScript's type annotations are not enforced at
runtime, so fields that the source types as `string` are modelled as
arbitrary JSON values with JavaScript truthiness. -/
inductive Json where
  | jnull : Json
  | jbool : Bool → Json
  | jnum : ℚ → Json
  | jstr : String → Json
  | jarr : List Json → Json
  | jobj : List (String × Json) → Json
deriving Repr

/-- JavaScript truthiness of a JSON value (`NaN` is not modelled;
`jnull` stands for JavaScript `null`). -/
def jsTruthy : Json → Bool
  | .jnull => false
  | .jbool b => b
  | .jnum q => q ≠ 0
  | .jstr s => s ≠ ""
  | .jarr _ => true
  | .jobj _ => true

/-- First binding of a key in an association list (JavaScript `Map.get`
/ object property lookup; keys are unique in both). -/
def mapGet {α : Type} : List (String × α) → String → Option α
  | [], _ => none
  | (k', v) :: rest, k => if k' = k then some v else mapGet rest k

/-- `Map.set` / property assignment: replace the binding in place when
the key is present, otherwise append it. -/
def mapSet {α : Type} : List (String × α) → String → α → List (String × α)
  | [], k, v => [(k, v)]
  | (k', v') :: rest, k, v =>
      if k' = k then (k, v) :: rest else (k', v') :: mapSet rest k v

/-- `Map.delete`: remove the binding of the key, if present. -/
def mapDelete {α : Type} : List (String × α) → String → List (String × α)
  | [], _ => []
  | (k', v') :: rest, k => if k' = k then rest else (k', v') :: mapDelete rest k

/-- Property access `v.f`: field lookup on objects, `undefined`
(`none`) on every other non-null value. -/
def jget : Json → String → Option Json
  | .jobj fields, k => mapGet fields k
  | _, _ => none

/-- JavaScript `a || b` where `a` is a possibly-undefined value:
the value itself when truthy, the fallback otherwise. -/
def jsOr (a : Option Json) (fallback : Json) : Json :=
  match a with
  | some v => if jsTruthy v then v else fallback
  | none => fallback

/-- Decimal digits of a natural number (rendering helper for
`JSON.stringify`; the exact digit text is irrelevant to the claims). -/
def natStr (n : Nat) : String :=
  if h : n < 10 then String.singleton (Char.ofNat (48 + n))
  else natStr (n / 10) ++ String.singleton (Char.ofNat (48 + n % 10))
  termination_by n
  decreasing_by exact Nat.div_lt_self (by omega) (by omega)

/-- Rendering of a JSON number (model of JavaScript's number
formatting; the claims never inspect the digit text). -/
def numStr (q : ℚ) : String :=
  (if q < 0 then "-" else "") ++ natStr q.num.natAbs ++
    (if q.den = 1 then "" else "/" ++ natStr q.den)

/-- Escape a character for a JSON string literal. -/
def escapeChar (c : Char) : String :=
  if c = '"' then "\\\"" else if c = '\\' then "\\\\" else String.singleton c

/-- A JSON string literal. -/
def jsonQuote (s : String) : String :=
  "\"" ++ String.join (s.data.map escapeChar) ++ "\""

mutual

/-- Model of `JSON.stringify` on JSON values. -/
def jsonStr : Json → String
  | .jnull => "null"
  | .jbool true => "true"
  | .jbool false => "false"
  | .jnum q => numStr q
  | .jstr s => jsonQuote s
  | .jarr xs => "[" ++ jsonStrList xs ++ "]"
  | .jobj fs => "\x7b" ++ jsonStrFields fs ++ "\x7d"

/-- Comma-separated serialization of an array's elements. -/
def jsonStrList : List Json → String
  | [] => ""
  | [x] => jsonStr x
  | x :: xs => jsonStr x ++ "," ++ jsonStrList xs

/-- Comma-separated serialization of an object's fields. -/
def jsonStrFields : List (String × Json) → String
  | [] => ""
  | [(k, v)] => jsonQuote k ++ ":" ++ jsonStr v
  | (k, v) :: fs => jsonQuote k ++ ":" ++ jsonStr v ++ "," ++ jsonStrFields fs

end

/-- A cache entry: `{ value, expiry }` with `expiry` an absolute
timestamp in milliseconds (`Date.now() + ttl * 1000`). -/
structure CacheItem where
  value : Json
  expiry : Nat
deriving Repr

/-- The module-level in-memory cache `Map`. -/
abbrev Cache := List (String × CacheItem)

/-- `getCached(key)` at time `now`: returns the stored value, treating
an expired entry (`Date.now() > item.expiry`) as absent and lazily
deleting it.  Returns the (possibly updated) cache alongside. -/
def getCached (c : Cache) (key : String) (now : Nat) : Option Json × Cache :=
  match mapGet c key with
  | none => (none, c)
  | some item =>
      if now > item.expiry then (none, mapDelete c key)
      else (some item.value, c)

/-- `setCache(key, value, ttl)` at time `now`:
stores `{ value, expiry: Date.now() + ttl * 1000 }`. -/
def setCache (c : Cache) (key : String) (value : Json) (ttl : Nat) (now : Nat) : Cache :=
  mapSet c key ⟨value, now + ttl * 1000⟩

/-- Outcome of the GitHub gist fetch inside `getGistConfig`:
non-2xx response, network error (`fetch` rejecting), malformed
content (`JSON.parse` throwing), or a successfully parsed
configuration object. -/
inductive FetchOutcome where
  | notOk : Nat → FetchOutcome
  | netError : FetchOutcome
  | badJson : FetchOutcome
  | ok : List (String × Json) → FetchOutcome
deriving Repr

/-- `getGistConfig(gistId, token)`: every failure branch (the
`!response.ok` early return and the surrounding `try/catch`) yields
the empty object `{}`; a successful fetch-and-parse yields the parsed
configuration mapping. -/
def getGistConfig : FetchOutcome → List (String × Json)
  | .notOk _ => []
  | .netError => []
  | .badJson => []
  | .ok cfg => cfg

/-- Outcome of `await env.AI.run(model, params)`: the promise rejects
(`err`, caught by the handler's outer `catch`) or resolves to a JSON
payload. -/
inductive RunOutcome where
  | err : String → RunOutcome
  | ok : Json → RunOutcome
deriving Repr

/-- The environment bindings consulted by the workflow handler:
`GIST_ID` and `GITHUB_TOKEN` (secrets; `none` = unset) and whether
the `CONFIG` KV namespace binding is present. -/
structure WEnv where
  gistId : Option String
  githubToken : Option String
  hasKV : Bool
deriving Repr

/-- Oracle values for the external calls a single request may make. -/
structure Oracle where
  gist : FetchOutcome
  run : RunOutcome
  kvPutOk : Bool
deriving Repr

/-- A record written to the `CONFIG` KV namespace
(`key`, serialized value, `expirationTtl`). -/
structure LedgerEntry where
  key : String
  value : String
  expirationTtl : Nat
deriving Repr

/-- The mutable state a request touches: the module-level cache map
and the KV namespace viewed as an append-only ledger. -/
structure WState where
  cache : Cache
  ledger : List LedgerEntry

/-- The parsed JSON body of a `/api/workflow` POST request; `none`
models an absent property (destructuring defaults apply). -/
structure WorkflowRequest where
  prompt : Option String
  model : Option String
  temperature : Option ℚ
  max_tokens : Option ℚ
deriving Repr

/-- The handler's HTTP result: a 200 workflow response
`{ result, source, model, timestamp }`, a 400 `{ error }`, or a
500 `{ error, timestamp }` from the outer `catch`. -/
inductive HandlerResult where
  | okResp : Json → String → String → Nat → HandlerResult
  | badRequest : String → HandlerResult
  | serverError : String → HandlerResult
deriving Repr

/-- Which external calls the request performed: whether the gist fetch
was attempted, the `(model, params)` passed to `env.AI.run` if it was
invoked, and whether a KV `put` was attempted. -/
structure Effects where
  configFetched : Bool
  modelInvokedWith : Option (String × List (String × Json))
  ledgerPutAttempted : Bool
deriving Repr

/-- `truthy(env.X)` for a possibly-unset string binding. -/
def envTruthy : Option String → Bool
  | none => false
  | some s => s ≠ ""

/-- The default model name from the destructuring of the request body. -/
def defaultModel : String := "@cf/meta/llama-2-7b-chat-int8"

/-- The cache key `ai:${model}:${prompt.substring(0, 50)}`. -/
def cacheKeyOf (model prompt : String) : String :=
  "ai:" ++ model ++ ":" ++ prompt.take 50

/-- The object literal `{ prompt, temperature, max_tokens, ...config }`:
the three explicit properties in insertion order, then the spread of
`config` assigning field by field (later assignments win). -/
def mergedParams (prompt : String) (temperature : ℚ) (max_tokens : ℚ)
    (config : List (String × Json)) : List (String × Json) :=
  config.foldl (fun acc kv => mapSet acc kv.1 kv.2)
    [("prompt", .jstr prompt), ("temperature", .jnum temperature),
     ("max_tokens", .jnum max_tokens)]

/-- `aiResponse.response || JSON.stringify(aiResponse)`. -/
def extractResult (payload : Json) : Json :=
  jsOr (jget payload "response") (.jstr (jsonStr payload))

/-- Timestamp rendering (`new Date().toISOString()` /
`JSON.stringify(new Date())`); modelled as the decimal epoch
milliseconds, the claims never inspect the text. -/
def isoStr (now : Nat) : String := natStr now

/-- Whether a JSON value is `null` (property access on it throws). -/
def isNull : Json → Bool
  | .jnull => true
  | _ => false

/-- The cache-miss continuation of the handler (everything from
`// Load configuration from Gist if available` on), acting on the
cache as already updated by the `getCached` read. -/
def missPath (env : WEnv) (orc : Oracle) (now : Nat) (st : WState)
    (cacheKey model prompt : String) (temperature max_tokens : ℚ) :
    HandlerResult × WState × Effects :=
  let fetchCfg := envTruthy env.gistId && envTruthy env.githubToken
  let config := if fetchCfg then getGistConfig orc.gist else []
  let params := mergedParams prompt temperature max_tokens config
  match orc.run with
  | .err msg =>
      -- outer catch: `error.message || 'Internal server error'`
      (.serverError (if msg = "" then "Internal server error" else msg),
        st, ⟨fetchCfg, some (model, params), false⟩)
  | .ok payload =>
      if isNull payload then
        -- property access on a null payload throws a TypeError,
        -- caught by the handler's outer `catch`
        (.serverError "Cannot read properties of null (reading response)",
          st, ⟨fetchCfg, some (model, params), false⟩)
      else
        let result := extractResult payload
        let cache2 := setCache st.cache cacheKey result 3600 now
        let ledger2 :=
          if env.hasKV && orc.kvPutOk then
            st.ledger ++ [⟨"workflow:" ++ natStr now,
              jsonStr (.jobj [("prompt", .jstr prompt), ("result", result),
                ("model", .jstr model), ("timestamp", .jstr (isoStr now))]),
              86400⟩]
          else st.ledger
        (.okResp result "ai" model now, ⟨cache2, ledger2⟩,
          ⟨fetchCfg, some (model, params), env.hasKV⟩)

/-- The handler after prompt validation and body destructuring: cache
read, hit test (`if (cached)`), and, on a miss, `missPath`. -/
def afterValidation (env : WEnv) (orc : Oracle) (now : Nat)
    (prompt model : String) (temperature max_tokens : ℚ) (st : WState) :
    HandlerResult × WState × Effects :=
  let cacheKey := cacheKeyOf model prompt
  let read := getCached st.cache cacheKey now
  let st1 : WState := ⟨read.2, st.ledger⟩
  match read.1 with
  | some v =>
      if jsTruthy v then
        (.okResp v "cache" model now, st1, ⟨false, none, false⟩)
      else
        missPath env orc now st1 cacheKey model prompt temperature max_tokens
  | none =>
      missPath env orc now st1 cacheKey model prompt temperature max_tokens

/-- The `/api/workflow` POST handler of `src/index.ts`, from body
destructuring to the returned response, as a pure function of the
request, the environment, the external-call oracle, the current time
and the mutable state. -/
def handleWorkflow (env : WEnv) (orc : Oracle) (now : Nat)
    (body : WorkflowRequest) (st : WState) :
    HandlerResult × WState × Effects :=
  let promptOk : Bool := match body.prompt with
    | some p => p ≠ ""
    | none => false
  if promptOk then
    afterValidation env orc now (body.prompt.getD "") (body.model.getD defaultModel)
      (body.temperature.getD (7 / 10 : ℚ)) (body.max_tokens.getD 2048) st
  else
    (.badRequest "Prompt is required", st, ⟨false, none, false⟩)

/-- The hit test the handler performs on the cache read:
`getCached` returned a value and JavaScript finds it truthy. -/
def isHit (c : Cache) (key : String) (now : Nat) : Bool :=
  match (getCached c key now).1 with
  | some v => jsTruthy v
  | none => false

/-- The value a key ends up bound to after spreading an association
list field by field (later occurrences win), if any. -/
def overrideGet {α : Type} : List (String × α) → String → Option α
  | [], _ => none
  | kv :: rest, k =>
      match overrideGet rest k with
      | some v => some v
      | none => if kv.1 = k then some kv.2 else none

/-- Every value stored in the cache is JavaScript-truthy.  This holds
of the empty initial cache and is preserved by the handler (see
`handleWorkflow_preserves_cacheWF`), so the `if (cached)` hit test can
only reject an entry the handler itself never writes. -/
def cacheWF (c : Cache) : Prop := ∀ kv ∈ c, jsTruthy kv.2.value = true

/-- The keys of the cache map are pairwise distinct — automatic for a
JavaScript `Map`, an invariant of the association-list model. -/
def cacheKeysNodup (c : Cache) : Prop := (c.map Prod.fst).Nodup

theorem mapGet_mapSet {α : Type} (c : List (String × α)) (k k' : String) (v : α) :
    mapGet (mapSet c k v) k' = if k = k' then some v else mapGet c k' := by
  induction c with
  | nil => simp [mapSet, mapGet]
  | cons kv rest ih =>
      obtain ⟨k₀, v₀⟩ := kv
      by_cases h₀ : k₀ = k
      · subst h₀
        by_cases h₁ : k₀ = k'
        · subst h₁; simp [mapSet, mapGet]
        · simp [mapSet, mapGet, h₁, Ne.symm h₁]
      · by_cases h₁ : k₀ = k'
        · subst h₁
          simp [mapSet, mapGet, h₀, Ne.symm h₀]
        · simp [mapSet, mapGet, h₀, h₁, ih]

theorem mapGet_foldl_mapSet {α : Type} (l : List (String × α))
    (base : List (String × α)) (k : String) :
    mapGet (l.foldl (fun acc kv => mapSet acc kv.1 kv.2) base) k =
      (overrideGet l k <|> mapGet base k) := by
  induction l generalizing base with
  | nil => simp [overrideGet]
  | cons kv rest ih =>
      simp only [List.foldl_cons, overrideGet, ih, mapGet_mapSet]
      cases overrideGet rest k with
      | some v => simp
      | none =>
          by_cases h : kv.1 = k
          · simp [h]
          · simp [h]

theorem mem_mapSet {α : Type} {c : List (String × α)} {k : String} {v : α}
    {kv : String × α} (h : kv ∈ mapSet c k v) : kv = (k, v) ∨ kv ∈ c := by
  induction c with
  | nil => simpa [mapSet] using h
  | cons kv₀ rest ih =>
      simp only [mapSet] at h
      split at h
      · rcases List.mem_cons.1 h with h' | h'
        · exact Or.inl h'
        · exact Or.inr (List.mem_cons.2 (Or.inr h'))
      · rcases List.mem_cons.1 h with h' | h'
        · exact Or.inr (List.mem_cons.2 (Or.inl h'))
        · rcases ih h' with h'' | h''
          · exact Or.inl h''
          · exact Or.inr (List.mem_cons.2 (Or.inr h''))

theorem mem_mapDelete {α : Type} {c : List (String × α)} {k : String}
    {kv : String × α} (h : kv ∈ mapDelete c k) : kv ∈ c := by
  induction c with
  | nil => simp [mapDelete] at h
  | cons kv₀ rest ih =>
      simp only [mapDelete] at h
      split at h
      · exact List.mem_cons.2 (Or.inr h)
      · rcases List.mem_cons.1 h with h' | h'
        · exact List.mem_cons.2 (Or.inl h')
        · exact List.mem_cons.2 (Or.inr (ih h'))

theorem mapGet_mapDelete_ne {α : Type} (c : List (String × α)) {k₀ k : String}
    (h : k₀ ≠ k) : mapGet (mapDelete c k₀) k = mapGet c k := by
  induction c with
  | nil => simp [mapDelete]
  | cons kv rest ih =>
      obtain ⟨k₁, v₁⟩ := kv
      by_cases h₁ : k₁ = k₀
      · subst h₁
        simp [mapDelete, mapGet, h]
      · simp [mapDelete, mapGet, h₁, ih]

theorem mapGet_eq_none_of_not_mem {α : Type} {c : List (String × α)} {k : String}
    (h : k ∉ c.map Prod.fst) : mapGet c k = none := by
  induction c with
  | nil => simp [mapGet]
  | cons kv rest ih =>
      simp only [List.map_cons, List.mem_cons] at h
      push_neg at h
      simp [mapGet, Ne.symm h.1, ih h.2]

theorem mapGet_mapDelete_self {c : List (String × CacheItem)} {k : String}
    (h : cacheKeysNodup c) : mapGet (mapDelete c k) k = none := by
  induction c with
  | nil => simp [mapDelete, mapGet]
  | cons kv rest ih =>
      obtain ⟨k₁, v₁⟩ := kv
      simp only [cacheKeysNodup, List.map_cons, List.nodup_cons] at h
      by_cases h₁ : k₁ = k
      · subst h₁
        simp only [mapDelete, if_pos rfl]
        exact mapGet_eq_none_of_not_mem h.1
      · simp [mapDelete, mapGet, h₁, ih h.2]

theorem natStr_length_pos (n : Nat) : 0 < (natStr n).length := by
  rw [natStr]
  split
  · simp [String.singleton]
  · simp

theorem jsonStr_length_pos (j : Json) : 0 < (jsonStr j).length := by
  cases j with
  | jnull => simp only [jsonStr]; decide
  | jbool b => cases b <;> (simp only [jsonStr]; decide)
  | jnum q =>
      have hpos := natStr_length_pos q.num.natAbs
      simp only [jsonStr, numStr]
      simp only [String.length_append]
      omega
  | jstr s =>
      simp only [jsonStr, jsonQuote, String.length_append]
      have : 0 < "\"".length := by decide
      omega
  | jarr xs =>
      simp only [jsonStr, String.length_append]
      have : 0 < "[".length := by decide
      omega
  | jobj fs =>
      simp only [jsonStr, String.length_append]
      have : 0 < "\x7b".length := by decide
      omega

theorem jsonStr_ne_empty (j : Json) : jsonStr j ≠ "" := by
  intro h
  have hl := jsonStr_length_pos j
  rw [h] at hl
  simp at hl

/-- Whatever the model returns, the value the handler extracts is
JavaScript-truthy: either the truthy `response` field itself or the
non-empty serialization of the whole payload. -/
theorem jsTruthy_extractResult (payload : Json) :
    jsTruthy (extractResult payload) = true := by
  rw [extractResult]
  cases h : jget payload "response" with
  | none => simp [jsOr, jsTruthy, jsonStr_ne_empty]
  | some v =>
      simp only [jsOr]
      by_cases hv : jsTruthy v = true
      · simp [hv]
      · rw [if_neg hv]
        simp [jsTruthy, jsonStr_ne_empty]

theorem cacheWF_mapDelete {c : Cache} {k : String} (h : cacheWF c) :
    cacheWF (mapDelete c k) := by
  intro kv hm
  exact h kv (mem_mapDelete hm)

theorem cacheWF_getCached_snd {c : Cache} {key : String} {now : Nat}
    (h : cacheWF c) : cacheWF (getCached c key now).2 := by
  unfold getCached
  cases mapGet c key with
  | none => exact h
  | some item =>
      by_cases he : now > item.expiry
      · simpa [he] using cacheWF_mapDelete h
      · simpa [he] using h

theorem cacheWF_setCache {c : Cache} {key : String} {v : Json} {ttl now : Nat}
    (h : cacheWF c) (hv : jsTruthy v = true) :
    cacheWF (setCache c key v ttl now) := by
  intro kv hm
  rcases mem_mapSet hm with h' | h'
  · subst h'; exact hv
  · exact h kv h'

theorem mapDelete_sublist {α : Type} (c : List (String × α)) (k : String) :
    (mapDelete c k).Sublist c := by
  induction c with
  | nil => simp [mapDelete]
  | cons kv rest ih =>
      simp only [mapDelete]
      split
      · exact (List.sublist_cons_self kv rest)
      · exact ih.cons₂ kv

theorem cacheKeysNodup_mapDelete {c : Cache} {k : String}
    (h : cacheKeysNodup c) : cacheKeysNodup (mapDelete c k) :=
  ((mapDelete_sublist c k).map Prod.fst).nodup h

theorem mem_keys_mapSet {α : Type} {c : List (String × α)} {k a : String}
    {v : α} (h : a ∈ (mapSet c k v).map Prod.fst) :
    a = k ∨ a ∈ c.map Prod.fst := by
  rcases List.mem_map.1 h with ⟨kv, hkv, rfl⟩
  rcases mem_mapSet hkv with h' | h'
  · subst h'; exact Or.inl rfl
  · exact Or.inr (List.mem_map.2 ⟨kv, h', rfl⟩)

theorem cacheKeysNodup_mapSet {c : Cache} {k : String} {v : CacheItem}
    (h : cacheKeysNodup c) : cacheKeysNodup (mapSet c k v) := by
  induction c with
  | nil => simp [cacheKeysNodup, mapSet]
  | cons kv rest ih =>
      obtain ⟨k₁, v₁⟩ := kv
      simp only [cacheKeysNodup, List.map_cons, List.nodup_cons] at h
      by_cases h₁ : k₁ = k
      · subst h₁
        simpa [cacheKeysNodup, mapSet] using h
      · have hrest := ih h.2
        simp only [cacheKeysNodup, mapSet, if_neg h₁, List.map_cons,
          List.nodup_cons]
        refine ⟨fun hmem => ?_, hrest⟩
        rcases mem_keys_mapSet hmem with h' | h'
        · exact h₁ h'
        · exact h.1 h'

theorem cacheKeysNodup_getCached_snd {c : Cache} {key : String} {now : Nat}
    (h : cacheKeysNodup c) : cacheKeysNodup (getCached c key now).2 := by
  unfold getCached
  cases mapGet c key with
  | none => exact h
  | some item =>
      by_cases he : now > item.expiry
      · simpa [he] using cacheKeysNodup_mapDelete h
      · simpa [he] using h

theorem missPath_preserves_nodup (env : WEnv) (orc : Oracle) (now : Nat)
    (st : WState) (key model prompt : String) (t m : ℚ)
    (h : cacheKeysNodup st.cache) :
    cacheKeysNodup (missPath env orc now st key model prompt t m).2.1.cache := by
  unfold missPath
  cases orc.run with
  | err msg => exact h
  | ok payload =>
      by_cases hn : isNull payload = true
      · simpa [hn] using h
      · simpa [hn] using (cacheKeysNodup_mapSet h : cacheKeysNodup
          (setCache st.cache key (extractResult payload) 3600 now))

theorem afterValidation_preserves_nodup (env : WEnv) (orc : Oracle)
    (now : Nat) (prompt model : String) (t m : ℚ) (st : WState)
    (h : cacheKeysNodup st.cache) :
    cacheKeysNodup (afterValidation env orc now prompt model t m st).2.1.cache := by
  unfold afterValidation
  have h1 : cacheKeysNodup ((⟨(getCached st.cache (cacheKeyOf model prompt) now).2,
      st.ledger⟩ : WState)).cache := cacheKeysNodup_getCached_snd h
  cases hr : (getCached st.cache (cacheKeyOf model prompt) now).1 with
  | some v =>
      by_cases hv : jsTruthy v = true
      · simpa [hr, hv] using h1
      · simpa [hr, hv] using
          missPath_preserves_nodup env orc now _ (cacheKeyOf model prompt)
            model prompt t m h1
  | none =>
      simpa [hr] using
        missPath_preserves_nodup env orc now _ (cacheKeyOf model prompt)
          model prompt t m h1

/-- The cache map never acquires duplicate keys (as for the
JavaScript `Map` it models): key distinctness is an invariant of
`handleWorkflow`. -/
theorem handleWorkflow_preserves_nodup (env : WEnv) (orc : Oracle)
    (now : Nat) (body : WorkflowRequest) (st : WState)
    (h : cacheKeysNodup st.cache) :
    cacheKeysNodup (handleWorkflow env orc now body st).2.1.cache := by
  cases hbp : body.prompt with
  | none => simpa [handleWorkflow, hbp] using h
  | some p =>
      by_cases hp : p = ""
      · simpa [handleWorkflow, hbp, hp] using h
      · simpa [handleWorkflow, hbp, hp] using
          afterValidation_preserves_nodup env orc now p (body.model.getD defaultModel)
            (body.temperature.getD (7 / 10 : ℚ)) (body.max_tokens.getD 2048) st h

theorem missPath_preserves_cacheWF (env : WEnv) (orc : Oracle) (now : Nat)
    (st : WState) (key model prompt : String) (t m : ℚ)
    (h : cacheWF st.cache) :
    cacheWF (missPath env orc now st key model prompt t m).2.1.cache := by
  unfold missPath
  cases orc.run with
  | err msg => exact h
  | ok payload =>
      by_cases hn : isNull payload = true
      · simpa [hn] using h
      · simpa [hn] using cacheWF_setCache h (jsTruthy_extractResult payload)

theorem afterValidation_preserves_cacheWF (env : WEnv) (orc : Oracle)
    (now : Nat) (prompt model : String) (t m : ℚ) (st : WState)
    (h : cacheWF st.cache) :
    cacheWF (afterValidation env orc now prompt model t m st).2.1.cache := by
  unfold afterValidation
  have h1 : cacheWF ((⟨(getCached st.cache (cacheKeyOf model prompt) now).2,
      st.ledger⟩ : WState)).cache := cacheWF_getCached_snd h
  cases hr : (getCached st.cache (cacheKeyOf model prompt) now).1 with
  | some v =>
      by_cases hv : jsTruthy v = true
      · simpa [hr, hv] using h1
      · simpa [hr, hv] using
          missPath_preserves_cacheWF env orc now _ (cacheKeyOf model prompt)
            model prompt t m h1
  | none =>
      simpa [hr] using
        missPath_preserves_cacheWF env orc now _ (cacheKeyOf model prompt)
          model prompt t m h1

/-- The handler only ever writes truthy values: cache well-formedness
is an invariant of `handleWorkflow`. -/
theorem handleWorkflow_preserves_cacheWF (env : WEnv) (orc : Oracle)
    (now : Nat) (body : WorkflowRequest) (st : WState)
    (h : cacheWF st.cache) :
    cacheWF (handleWorkflow env orc now body st).2.1.cache := by
  cases hbp : body.prompt with
  | none => simpa [handleWorkflow, hbp] using h
  | some p =>
      by_cases hp : p = ""
      · simpa [handleWorkflow, hbp, hp] using h
      · simpa [handleWorkflow, hbp, hp] using
          afterValidation_preserves_cacheWF env orc now p (body.model.getD defaultModel)
            (body.temperature.getD (7 / 10 : ℚ)) (body.max_tokens.getD 2048) st h

theorem handleWorkflow_validPrompt {body : WorkflowRequest} {p : String}
    (env : WEnv) (orc : Oracle) (now : Nat) (st : WState)
    (hp : body.prompt = some p) (hne : p ≠ "") :
    handleWorkflow env orc now body st =
      afterValidation env orc now p (body.model.getD defaultModel)
        (body.temperature.getD (7 / 10 : ℚ)) (body.max_tokens.getD 2048) st := by
  simp [handleWorkflow, hp, hne]

theorem afterValidation_hit {st : WState} {model prompt : String}
    {item : CacheItem} {now : Nat} (env : WEnv) (orc : Oracle) (t m : ℚ)
    (hget : mapGet st.cache (cacheKeyOf model prompt) = some item)
    (hexp : ¬ now > item.expiry) (htr : jsTruthy item.value = true) :
    afterValidation env orc now prompt model t m st =
      (.okResp item.value "cache" model now, st, ⟨false, none, false⟩) := by
  unfold afterValidation
  simp [getCached, hget, hexp, htr]

theorem afterValidation_miss {st : WState} {model prompt : String} {now : Nat}
    (env : WEnv) (orc : Oracle) (t m : ℚ)
    (hmiss : isHit st.cache (cacheKeyOf model prompt) now = false) :
    afterValidation env orc now prompt model t m st =
      missPath env orc now
        ⟨(getCached st.cache (cacheKeyOf model prompt) now).2, st.ledger⟩
        (cacheKeyOf model prompt) model prompt t m := by
  unfold isHit at hmiss
  unfold afterValidation
  cases hr : (getCached st.cache (cacheKeyOf model prompt) now).1 with
  | none => simp [hr]
  | some v =>
      rw [hr] at hmiss
      simp at hmiss
      simp [hr, hmiss]

theorem missPath_err (env : WEnv) {orc : Oracle} (now : Nat) (st : WState)
    (key model prompt : String) (t m : ℚ) {msg : String}
    (h : orc.run = .err msg) :
    missPath env orc now st key model prompt t m =
      (.serverError (if msg = "" then "Internal server error" else msg), st,
        ⟨envTruthy env.gistId && envTruthy env.githubToken,
         some (model, mergedParams prompt t m
           (if envTruthy env.gistId && envTruthy env.githubToken then
             getGistConfig orc.gist else [])), false⟩) := by
  simp [missPath, h]

theorem missPath_ok (env : WEnv) {orc : Oracle} (now : Nat) (st : WState)
    (key model prompt : String) (t m : ℚ) {payload : Json}
    (h : orc.run = .ok payload) (hnn : isNull payload = false) :
    missPath env orc now st key model prompt t m =
      (.okResp (extractResult payload) "ai" model now,
        ⟨setCache st.cache key (extractResult payload) 3600 now,
         if env.hasKV && orc.kvPutOk then
           st.ledger ++ [⟨"workflow:" ++ natStr now,
             jsonStr (.jobj [("prompt", .jstr prompt),
               ("result", extractResult payload),
               ("model", .jstr model), ("timestamp", .jstr (isoStr now))]),
             86400⟩]
         else st.ledger⟩,
        ⟨envTruthy env.gistId && envTruthy env.githubToken,
         some (model, mergedParams prompt t m
           (if envTruthy env.gistId && envTruthy env.githubToken then
             getGistConfig orc.gist else [])),
         env.hasKV⟩) := by
  simp [missPath, h, hnn]

theorem missPath_okNull (env : WEnv) {orc : Oracle} (now : Nat) (st : WState)
    (key model prompt : String) (t m : ℚ) {payload : Json}
    (h : orc.run = .ok payload) (hnn : isNull payload = true) :
    missPath env orc now st key model prompt t m =
      (.serverError "Cannot read properties of null (reading response)", st,
        ⟨envTruthy env.gistId && envTruthy env.githubToken,
         some (model, mergedParams prompt t m
           (if envTruthy env.gistId && envTruthy env.githubToken then
             getGistConfig orc.gist else [])), false⟩) := by
  simp [missPath, h, hnn]

theorem missPath_configFetched (env : WEnv) (orc : Oracle) (now : Nat)
    (st : WState) (key model prompt : String) (t m : ℚ) :
    (missPath env orc now st key model prompt t m).2.2.configFetched =
      (envTruthy env.gistId && envTruthy env.githubToken) := by
  unfold missPath
  cases orc.run with
  | err msg => rfl
  | ok payload =>
      by_cases hn : isNull payload = true
      · simp [hn]
      · simp only [Bool.not_eq_true] at hn
        simp [hn]

theorem missPath_modelInvokedWith (env : WEnv) (orc : Oracle) (now : Nat)
    (st : WState) (key model prompt : String) (t m : ℚ) :
    (missPath env orc now st key model prompt t m).2.2.modelInvokedWith =
      some (model, mergedParams prompt t m
        (if envTruthy env.gistId && envTruthy env.githubToken then
          getGistConfig orc.gist else [])) := by
  unfold missPath
  cases orc.run with
  | err msg => rfl
  | ok payload =>
      by_cases hn : isNull payload = true
      · simp [hn]
      · simp only [Bool.not_eq_true] at hn
        simp [hn]

/-- On any input the cache after `getCached` agrees with the cache
before it at every key, except that the read key may have been lazily
deleted (assuming the map's keys are distinct, as they are for a
JavaScript `Map`). -/
theorem mapGet_getCached_snd (c : Cache) (key : String) (now : Nat)
    (hnodup : cacheKeysNodup c) (k : String) :
    mapGet (getCached c key now).2 k = mapGet c k ∨
      mapGet (getCached c key now).2 k = none := by
  unfold getCached
  cases hg : mapGet c key with
  | none => left; rfl
  | some item =>
      by_cases he : now > item.expiry
      · simp only [if_pos he]
        by_cases hk : key = k
        · subst hk
          right
          exact mapGet_mapDelete_self hnodup
        · left
          exact mapGet_mapDelete_ne c hk
      · simp [if_neg he]

/-- C2: a request with a non-empty prompt that hits an unexpired
(truthy-valued) cache entry under the derived key is answered with
that value verbatim and source "cache"; the state (cache and ledger)
is unchanged and no config fetch, model invocation or ledger write
occurs. -/
theorem claim_C2_cache_hit_short_circuits (env : WEnv) (orc : Oracle)
    (now : Nat) (body : WorkflowRequest) (st : WState) (p : String)
    (item : CacheItem) (hp : body.prompt = some p) (hne : p ≠ "")
    (hget : mapGet st.cache (cacheKeyOf (body.model.getD defaultModel) p) =
      some item)
    (hexp : ¬ now > item.expiry) (htr : jsTruthy item.value = true) :
    handleWorkflow env orc now body st =
      (.okResp item.value "cache" (body.model.getD defaultModel) now, st,
        ⟨false, none, false⟩) := by
  rw [handleWorkflow_validPrompt env orc now st hp hne]
  exact afterValidation_hit env orc _ _ hget hexp htr

/-- C2 witness: a concrete hit (entry stored under the derived key
with future expiry) is served from the cache with no effects. -/
theorem claim_C2_witness :
    (some "Explain X" = some "Explain X" ∧ "Explain X" ≠ "" ∧
      mapGet [(cacheKeyOf "m1" "Explain X",
        (⟨.jstr "cached", 999999⟩ : CacheItem))]
        (cacheKeyOf "m1" "Explain X") = some ⟨.jstr "cached", 999999⟩ ∧
      ¬ (1000 : Nat) > 999999 ∧ jsTruthy (.jstr "cached") = true) ∧
    handleWorkflow ⟨some "g", some "t", true⟩
        ⟨.ok [], .ok (.jobj []), true⟩ 1000
        ⟨some "Explain X", some "m1", none, none⟩
        ⟨[(cacheKeyOf "m1" "Explain X", ⟨.jstr "cached", 999999⟩)], []⟩ =
      (.okResp (.jstr "cached") "cache" "m1" 1000,
        ⟨[(cacheKeyOf "m1" "Explain X", ⟨.jstr "cached", 999999⟩)], []⟩,
        ⟨false, none, false⟩) :=
  ⟨⟨rfl, by decide, rfl, by decide, rfl⟩,
    claim_C2_cache_hit_short_circuits ⟨some "g", some "t", true⟩
      ⟨.ok [], .ok (.jobj []), true⟩ 1000
      ⟨some "Explain X", some "m1", none, none⟩
      ⟨[(cacheKeyOf "m1" "Explain X", ⟨.jstr "cached", 999999⟩)], []⟩
      "Explain X" ⟨.jstr "cached", 999999⟩ rfl (by decide) rfl
      (by decide) rfl⟩

/-- C3: a missing or empty prompt is rejected with the invalid-input
error (HTTP 400, "Prompt is required") regardless of the other
fields; the state is returned untouched and no external call is
recorded. -/
theorem claim_C3_empty_prompt_rejected (env : WEnv) (orc : Oracle)
    (now : Nat) (body : WorkflowRequest) (st : WState)
    (h : body.prompt = none ∨ body.prompt = some "") :
    handleWorkflow env orc now body st =
      (.badRequest "Prompt is required", st, ⟨false, none, false⟩) := by
  rcases h with h | h <;> simp [handleWorkflow, h]

/-- C3 witness: an empty prompt with every other field set is
rejected with no side effects. -/
theorem claim_C3_witness :
    ((⟨some "", some "m1", some 1, some 2⟩ : WorkflowRequest).prompt = none ∨
      (⟨some "", some "m1", some 1, some 2⟩ : WorkflowRequest).prompt = some "") ∧
    handleWorkflow ⟨some "g", some "t", true⟩ ⟨.ok [], .ok (.jobj []), true⟩ 5
        ⟨some "", some "m1", some 1, some 2⟩ ⟨[], []⟩ =
      (.badRequest "Prompt is required", ⟨[], []⟩, ⟨false, none, false⟩) :=
  ⟨Or.inr rfl,
    claim_C3_empty_prompt_rejected _ _ _ _ _ (Or.inr rfl)⟩

/-- C4: an entry whose expiry is strictly in the past is treated as
absent by the cache read — the read returns `none` and lazily deletes
the entry — and the handler then invokes the model and overwrites the
entry under that key with the fresh result (TTL 3600 s). -/
theorem claim_C4_expired_entry_overwritten (env : WEnv) (orc : Oracle)
    (now : Nat) (body : WorkflowRequest) (st : WState) (p : String)
    (item : CacheItem) (payload : Json)
    (hp : body.prompt = some p) (hne : p ≠ "")
    (hget : mapGet st.cache (cacheKeyOf (body.model.getD defaultModel) p) =
      some item)
    (hexp : item.expiry < now)
    (hrun : orc.run = .ok payload) (hnn : isNull payload = false) :
    getCached st.cache (cacheKeyOf (body.model.getD defaultModel) p) now =
      (none, mapDelete st.cache (cacheKeyOf (body.model.getD defaultModel) p)) ∧
    (handleWorkflow env orc now body st).2.2.modelInvokedWith.isSome = true ∧
    mapGet (handleWorkflow env orc now body st).2.1.cache
        (cacheKeyOf (body.model.getD defaultModel) p) =
      some ⟨extractResult payload, now + 3600 * 1000⟩ := by
  have hread : getCached st.cache
      (cacheKeyOf (body.model.getD defaultModel) p) now =
      (none, mapDelete st.cache (cacheKeyOf (body.model.getD defaultModel) p)) := by
    simp [getCached, hget, hexp]
  have hmiss : isHit st.cache
      (cacheKeyOf (body.model.getD defaultModel) p) now = false := by
    simp [isHit, hread]
  rw [handleWorkflow_validPrompt env orc now st hp hne,
    afterValidation_miss env orc _ _ hmiss,
    missPath_ok env now _ _ _ _ _ _ hrun hnn]
  exact ⟨hread, rfl, by simp [setCache, mapGet_mapSet]⟩

/-- C4 witness: a concrete expired entry is read as absent, deleted,
and then overwritten with the fresh model result. -/
theorem claim_C4_witness :
    ((⟨some "Explain X", some "m1", none, none⟩ : WorkflowRequest).prompt =
        some "Explain X" ∧ "Explain X" ≠ "" ∧
      mapGet [(cacheKeyOf "m1" "Explain X",
          (⟨.jstr "old", 500⟩ : CacheItem))] (cacheKeyOf "m1" "Explain X") =
        some ⟨.jstr "old", 500⟩ ∧
      (500 : Nat) < 1000 ∧
      (⟨.ok [], .ok (.jobj [("response", .jstr "hello")]), true⟩ : Oracle).run =
        .ok (.jobj [("response", .jstr "hello")]) ∧
      isNull (.jobj [("response", .jstr "hello")]) = false) ∧
    (getCached [(cacheKeyOf "m1" "Explain X", ⟨.jstr "old", 500⟩)]
        (cacheKeyOf "m1" "Explain X") 1000 =
      (none, mapDelete [(cacheKeyOf "m1" "Explain X", ⟨.jstr "old", 500⟩)]
        (cacheKeyOf "m1" "Explain X")) ∧
    (handleWorkflow ⟨some "g", some "t", true⟩
        ⟨.ok [], .ok (.jobj [("response", .jstr "hello")]), true⟩ 1000
        ⟨some "Explain X", some "m1", none, none⟩
        ⟨[(cacheKeyOf "m1" "Explain X", ⟨.jstr "old", 500⟩)], []⟩).2.2.modelInvokedWith.isSome = true ∧
    mapGet (handleWorkflow ⟨some "g", some "t", true⟩
        ⟨.ok [], .ok (.jobj [("response", .jstr "hello")]), true⟩ 1000
        ⟨some "Explain X", some "m1", none, none⟩
        ⟨[(cacheKeyOf "m1" "Explain X", ⟨.jstr "old", 500⟩)], []⟩).2.1.cache
        (cacheKeyOf "m1" "Explain X") =
      some ⟨extractResult (.jobj [("response", .jstr "hello")]),
        1000 + 3600 * 1000⟩) :=
  ⟨⟨rfl, by decide, rfl, by decide, rfl, rfl⟩,
    claim_C4_expired_entry_overwritten ⟨some "g", some "t", true⟩
      ⟨.ok [], .ok (.jobj [("response", .jstr "hello")]), true⟩ 1000
      ⟨some "Explain X", some "m1", none, none⟩
      ⟨[(cacheKeyOf "m1" "Explain X", ⟨.jstr "old", 500⟩)], []⟩
      "Explain X" ⟨.jstr "old", 500⟩ (.jobj [("response", .jstr "hello")])
      rfl (by decide) rfl (by decide) rfl rfl⟩

/-- C5: the cache key is a pure function of the model name and the
first 50 characters of the prompt: prompts agreeing on that prefix
derive the same key for the same model. -/
theorem claim_C5_cache_key_first50 (model p₁ p₂ : String)
    (h : p₁.take 50 = p₂.take 50) :
    cacheKeyOf model p₁ = cacheKeyOf model p₂ := by
  simp [cacheKeyOf, h]

/-- C5 witness: two different prompts sharing their first 50
characters collide on the same cache key. -/
theorem claim_C5_witness :
    (String.mk (List.replicate 50 'a') ++ "tail").take 50 =
      (String.mk (List.replicate 50 'a') ++ "other").take 50 ∧
    cacheKeyOf "m1" (String.mk (List.replicate 50 'a') ++ "tail") =
      cacheKeyOf "m1" (String.mk (List.replicate 50 'a') ++ "other") :=
  ⟨by decide,
    claim_C5_cache_key_first50 "m1" _ _ (by decide)⟩

/-- C6: on a cache miss, any failure of the configuration load
(non-2xx response, network error or malformed payload) degrades to
the empty mapping — the model call is still made with the explicit
request parameters only — and, when the model call succeeds, the
request returns a successful "ai" response. -/
theorem claim_C6_config_failure_degrades (env : WEnv) (orc : Oracle)
    (now : Nat) (body : WorkflowRequest) (st : WState) (p : String)
    (payload : Json) (hp : body.prompt = some p) (hne : p ≠ "")
    (hmiss : isHit st.cache (cacheKeyOf (body.model.getD defaultModel) p) now = false)
    (hfail : orc.gist = .netError ∨ (∃ s, orc.gist = .notOk s) ∨
      orc.gist = .badJson)
    (hrun : orc.run = .ok payload) (hnn : isNull payload = false) :
    (handleWorkflow env orc now body st).1 =
      .okResp (extractResult payload) "ai" (body.model.getD defaultModel) now ∧
    (handleWorkflow env orc now body st).2.2.modelInvokedWith =
      some (body.model.getD defaultModel,
        mergedParams p (body.temperature.getD (7 / 10 : ℚ))
          (body.max_tokens.getD 2048) []) := by
  have hcfg : getGistConfig orc.gist = [] := by
    rcases hfail with h | ⟨s, h⟩ | h <;> simp [getGistConfig, h]
  rw [handleWorkflow_validPrompt env orc now st hp hne,
    afterValidation_miss env orc _ _ hmiss,
    missPath_ok env now _ _ _ _ _ _ hrun hnn]
  exact ⟨rfl, by simp [hcfg]⟩

/-- C6 witness: a concrete network error on the gist fetch still
produces a successful "ai" response with only request parameters. -/
theorem claim_C6_witness :
    ((⟨some "Explain X", some "m1", none, none⟩ : WorkflowRequest).prompt =
        some "Explain X" ∧ "Explain X" ≠ "" ∧
      isHit ([] : Cache) (cacheKeyOf "m1" "Explain X") 1000 = false ∧
      ((⟨.netError, .ok (.jobj [("response", .jstr "hi")]), true⟩ : Oracle).gist =
          .netError ∨
        (∃ s, (⟨.netError, .ok (.jobj [("response", .jstr "hi")]), true⟩ : Oracle).gist =
          .notOk s) ∨
        (⟨.netError, .ok (.jobj [("response", .jstr "hi")]), true⟩ : Oracle).gist =
          .badJson) ∧
      isNull (.jobj [("response", .jstr "hi")]) = false) ∧
    ((handleWorkflow ⟨some "g", some "t", true⟩
        ⟨.netError, .ok (.jobj [("response", .jstr "hi")]), true⟩ 1000
        ⟨some "Explain X", some "m1", none, none⟩ ⟨[], []⟩).1 =
      .okResp (extractResult (.jobj [("response", .jstr "hi")])) "ai" "m1" 1000 ∧
    (handleWorkflow ⟨some "g", some "t", true⟩
        ⟨.netError, .ok (.jobj [("response", .jstr "hi")]), true⟩ 1000
        ⟨some "Explain X", some "m1", none, none⟩ ⟨[], []⟩).2.2.modelInvokedWith =
      some ("m1", mergedParams "Explain X" (7 / 10 : ℚ) 2048 [])) :=
  ⟨⟨rfl, by decide, rfl, Or.inl rfl, rfl⟩,
    claim_C6_config_failure_degrades ⟨some "g", some "t", true⟩
      ⟨.netError, .ok (.jobj [("response", .jstr "hi")]), true⟩ 1000
      ⟨some "Explain X", some "m1", none, none⟩ ⟨[], []⟩ "Explain X"
      (.jobj [("response", .jstr "hi")]) rfl (by decide) rfl (Or.inl rfl)
      rfl rfl⟩

/-- C7: on a cache miss where the model invocation errors, the error
message is propagated as the 500 upstream-failure response, the model
was invoked exactly once (no retry), no ledger record is appended, no
ledger write is attempted, and no cache entry is written: every key
afterwards holds its old value or nothing (the read key may only have
lost a lazily deleted expired entry). -/
theorem claim_C7_model_error_propagates (env : WEnv) (orc : Oracle)
    (now : Nat) (body : WorkflowRequest) (st : WState) (p msg : String)
    (hp : body.prompt = some p) (hne : p ≠ "")
    (hmiss : isHit st.cache (cacheKeyOf (body.model.getD defaultModel) p) now = false)
    (hnodup : cacheKeysNodup st.cache)
    (hrun : orc.run = .err msg) :
    (handleWorkflow env orc now body st).1 =
      .serverError (if msg = "" then "Internal server error" else msg) ∧
    (handleWorkflow env orc now body st).2.1.ledger = st.ledger ∧
    (∀ k, mapGet (handleWorkflow env orc now body st).2.1.cache k =
        mapGet st.cache k ∨
      mapGet (handleWorkflow env orc now body st).2.1.cache k = none) ∧
    (handleWorkflow env orc now body st).2.2.modelInvokedWith.isSome = true ∧
    (handleWorkflow env orc now body st).2.2.ledgerPutAttempted = false := by
  rw [handleWorkflow_validPrompt env orc now st hp hne,
    afterValidation_miss env orc _ _ hmiss,
    missPath_err env now _ _ _ _ _ _ hrun]
  exact ⟨rfl, rfl,
    mapGet_getCached_snd st.cache (cacheKeyOf (body.model.getD defaultModel) p)
      now hnodup,
    rfl, rfl⟩

/-- C7 witness: a concrete model error is surfaced as a 500 with the
error message and leaves cache and ledger untouched. -/
theorem claim_C7_witness :
    ((⟨some "Explain X", some "m1", none, none⟩ : WorkflowRequest).prompt =
        some "Explain X" ∧ "Explain X" ≠ "" ∧
      isHit ([] : Cache) (cacheKeyOf "m1" "Explain X") 1000 = false ∧
      cacheKeysNodup ([] : Cache) ∧
      ((⟨.ok [], .err "boom", true⟩ : Oracle).run = .err "boom")) ∧
    ((handleWorkflow ⟨some "g", some "t", true⟩ ⟨.ok [], .err "boom", true⟩
        1000 ⟨some "Explain X", some "m1", none, none⟩ ⟨[], []⟩).1 =
      .serverError (if "boom" = "" then "Internal server error" else "boom") ∧
    (handleWorkflow ⟨some "g", some "t", true⟩ ⟨.ok [], .err "boom", true⟩
        1000 ⟨some "Explain X", some "m1", none, none⟩ ⟨[], []⟩).2.1.ledger = [] ∧
    (∀ k, mapGet (handleWorkflow ⟨some "g", some "t", true⟩
        ⟨.ok [], .err "boom", true⟩ 1000
        ⟨some "Explain X", some "m1", none, none⟩ ⟨[], []⟩).2.1.cache k =
        mapGet ([] : Cache) k ∨
      mapGet (handleWorkflow ⟨some "g", some "t", true⟩
        ⟨.ok [], .err "boom", true⟩ 1000
        ⟨some "Explain X", some "m1", none, none⟩ ⟨[], []⟩).2.1.cache k = none) ∧
    (handleWorkflow ⟨some "g", some "t", true⟩ ⟨.ok [], .err "boom", true⟩
        1000 ⟨some "Explain X", some "m1", none, none⟩
        ⟨[], []⟩).2.2.modelInvokedWith.isSome = true ∧
    (handleWorkflow ⟨some "g", some "t", true⟩ ⟨.ok [], .err "boom", true⟩
        1000 ⟨some "Explain X", some "m1", none, none⟩
        ⟨[], []⟩).2.2.ledgerPutAttempted = false) :=
  ⟨⟨rfl, by decide, rfl, by simp [cacheKeysNodup], rfl⟩,
    claim_C7_model_error_propagates ⟨some "g", some "t", true⟩
      ⟨.ok [], .err "boom", true⟩ 1000
      ⟨some "Explain X", some "m1", none, none⟩ ⟨[], []⟩ "Explain X" "boom"
      rfl (by decide) rfl (by simp [cacheKeysNodup]) rfl⟩

/-- C8: on a cache miss with a successful model call, a ledger-write
failure is swallowed (nothing is appended) and the request still
returns the successful "ai" response; the cache write itself
(`Map.set`) is infallible in the source and still happens. -/
theorem claim_C8_write_failure_swallowed (env : WEnv) (orc : Oracle)
    (now : Nat) (body : WorkflowRequest) (st : WState) (p : String)
    (payload : Json) (hp : body.prompt = some p) (hne : p ≠ "")
    (hmiss : isHit st.cache (cacheKeyOf (body.model.getD defaultModel) p) now = false)
    (hrun : orc.run = .ok payload) (hnn : isNull payload = false)
    (_hkv : env.hasKV = true) (hput : orc.kvPutOk = false) :
    (handleWorkflow env orc now body st).1 =
      .okResp (extractResult payload) "ai" (body.model.getD defaultModel) now ∧
    (handleWorkflow env orc now body st).2.1.ledger = st.ledger ∧
    mapGet (handleWorkflow env orc now body st).2.1.cache
        (cacheKeyOf (body.model.getD defaultModel) p) =
      some ⟨extractResult payload, now + 3600 * 1000⟩ := by
  rw [handleWorkflow_validPrompt env orc now st hp hne,
    afterValidation_miss env orc _ _ hmiss,
    missPath_ok env now _ _ _ _ _ _ hrun hnn]
  refine ⟨rfl, by simp [hput], by simp [setCache, mapGet_mapSet]⟩

/-- C8 witness: a concrete KV-write failure after a successful model
call still yields the "ai" response and appends nothing. -/
theorem claim_C8_witness :
    ((⟨some "Explain X", some "m1", none, none⟩ : WorkflowRequest).prompt =
        some "Explain X" ∧ "Explain X" ≠ "" ∧
      isHit ([] : Cache) (cacheKeyOf "m1" "Explain X") 1000 = false ∧
      isNull (.jobj [("response", .jstr "hi")]) = false ∧
      (⟨some "g", some "t", true⟩ : WEnv).hasKV = true ∧
      (⟨.ok [], .ok (.jobj [("response", .jstr "hi")]), false⟩ : Oracle).kvPutOk =
        false) ∧
    ((handleWorkflow ⟨some "g", some "t", true⟩
        ⟨.ok [], .ok (.jobj [("response", .jstr "hi")]), false⟩ 1000
        ⟨some "Explain X", some "m1", none, none⟩ ⟨[], []⟩).1 =
      .okResp (extractResult (.jobj [("response", .jstr "hi")])) "ai" "m1" 1000 ∧
    (handleWorkflow ⟨some "g", some "t", true⟩
        ⟨.ok [], .ok (.jobj [("response", .jstr "hi")]), false⟩ 1000
        ⟨some "Explain X", some "m1", none, none⟩ ⟨[], []⟩).2.1.ledger = [] ∧
    mapGet (handleWorkflow ⟨some "g", some "t", true⟩
        ⟨.ok [], .ok (.jobj [("response", .jstr "hi")]), false⟩ 1000
        ⟨some "Explain X", some "m1", none, none⟩ ⟨[], []⟩).2.1.cache
        (cacheKeyOf "m1" "Explain X") =
      some ⟨extractResult (.jobj [("response", .jstr "hi")]), 1000 + 3600 * 1000⟩) :=
  ⟨⟨rfl, by decide, rfl, rfl, rfl, rfl⟩,
    claim_C8_write_failure_swallowed ⟨some "g", some "t", true⟩
      ⟨.ok [], .ok (.jobj [("response", .jstr "hi")]), false⟩ 1000
      ⟨some "Explain X", some "m1", none, none⟩ ⟨[], []⟩ "Explain X"
      (.jobj [("response", .jstr "hi")]) rfl (by decide) rfl rfl rfl rfl rfl⟩

/-- C9: when the model's response object carries no `response` field,
or carries it as the empty string, the result that is returned and
cached is the JSON serialization of the whole payload. -/
theorem claim_C9_falsy_response_serialized (env : WEnv) (orc : Oracle)
    (now : Nat) (body : WorkflowRequest) (st : WState) (p : String)
    (fields : List (String × Json)) (hp : body.prompt = some p) (hne : p ≠ "")
    (hmiss : isHit st.cache (cacheKeyOf (body.model.getD defaultModel) p) now = false)
    (hrun : orc.run = .ok (.jobj fields))
    (hfalsy : mapGet fields "response" = none ∨
      mapGet fields "response" = some (.jstr "")) :
    (handleWorkflow env orc now body st).1 =
      .okResp (.jstr (jsonStr (.jobj fields))) "ai"
        (body.model.getD defaultModel) now ∧
    mapGet (handleWorkflow env orc now body st).2.1.cache
        (cacheKeyOf (body.model.getD defaultModel) p) =
      some ⟨.jstr (jsonStr (.jobj fields)), now + 3600 * 1000⟩ := by
  have hex : extractResult (.jobj fields) = .jstr (jsonStr (.jobj fields)) := by
    rcases hfalsy with h | h
    · simp [extractResult, jget, h, jsOr]
    · simp [extractResult, jget, h, jsOr, jsTruthy]
  rw [handleWorkflow_validPrompt env orc now st hp hne,
    afterValidation_miss env orc _ _ hmiss,
    missPath_ok env now _ _ _ _ _ _ hrun rfl]
  exact ⟨by rw [hex], by simp [setCache, mapGet_mapSet, hex]⟩

/-- C9 witness: a payload whose `response` field is the empty string
is returned and cached as the serialization of the whole payload. -/
theorem claim_C9_witness :
    ((⟨some "Explain X", some "m1", none, none⟩ : WorkflowRequest).prompt =
        some "Explain X" ∧ "Explain X" ≠ "" ∧
      isHit ([] : Cache) (cacheKeyOf "m1" "Explain X") 1000 = false ∧
      (mapGet [("response", Json.jstr ""), ("x", Json.jnum 1)] "response" = none ∨
        mapGet [("response", Json.jstr ""), ("x", Json.jnum 1)] "response" =
          some (.jstr ""))) ∧
    ((handleWorkflow ⟨some "g", some "t", true⟩
        ⟨.ok [], .ok (.jobj [("response", .jstr ""), ("x", .jnum 1)]), true⟩ 1000
        ⟨some "Explain X", some "m1", none, none⟩ ⟨[], []⟩).1 =
      .okResp (.jstr (jsonStr (.jobj [("response", .jstr ""), ("x", .jnum 1)])))
        "ai" "m1" 1000 ∧
    mapGet (handleWorkflow ⟨some "g", some "t", true⟩
        ⟨.ok [], .ok (.jobj [("response", .jstr ""), ("x", .jnum 1)]), true⟩ 1000
        ⟨some "Explain X", some "m1", none, none⟩ ⟨[], []⟩).2.1.cache
        (cacheKeyOf "m1" "Explain X") =
      some ⟨.jstr (jsonStr (.jobj [("response", .jstr ""), ("x", .jnum 1)])),
        1000 + 3600 * 1000⟩) :=
  ⟨⟨rfl, by decide, rfl, Or.inr rfl⟩,
    claim_C9_falsy_response_serialized ⟨some "g", some "t", true⟩
      ⟨.ok [], .ok (.jobj [("response", .jstr ""), ("x", .jnum 1)]), true⟩ 1000
      ⟨some "Explain X", some "m1", none, none⟩ ⟨[], []⟩ "Explain X"
      [("response", .jstr ""), ("x", .jnum 1)] rfl (by decide) rfl rfl
      (Or.inr rfl)⟩

/-- C10: on a cache miss, if the gist id or the GitHub token is unset
no configuration fetch is attempted and the model is invoked with the
request-level parameters and defaults only (the empty configuration
mapping merged in). -/
theorem claim_C10_unset_config_skips_fetch (env : WEnv) (orc : Oracle)
    (now : Nat) (body : WorkflowRequest) (st : WState) (p : String)
    (hp : body.prompt = some p) (hne : p ≠ "")
    (hmiss : isHit st.cache (cacheKeyOf (body.model.getD defaultModel) p) now = false)
    (hunset : env.gistId = none ∨ env.githubToken = none) :
    (handleWorkflow env orc now body st).2.2.configFetched = false ∧
    (handleWorkflow env orc now body st).2.2.modelInvokedWith =
      some (body.model.getD defaultModel,
        mergedParams p (body.temperature.getD (7 / 10 : ℚ))
          (body.max_tokens.getD 2048) []) := by
  have hff : (envTruthy env.gistId && envTruthy env.githubToken) = false := by
    rcases hunset with h | h <;> simp [envTruthy, h]
  rw [handleWorkflow_validPrompt env orc now st hp hne,
    afterValidation_miss env orc _ _ hmiss]
  constructor
  · rw [missPath_configFetched]
    exact hff
  · rw [missPath_modelInvokedWith]
    simp [hff]

/-- C10 witness: with the gist id unset, a concrete miss invokes the
model with only the request parameters and performs no config
fetch. -/
theorem claim_C10_witness :
    ((⟨some "Explain X", some "m1", none, none⟩ : WorkflowRequest).prompt =
        some "Explain X" ∧ "Explain X" ≠ "" ∧
      isHit ([] : Cache) (cacheKeyOf "m1" "Explain X") 1000 = false ∧
      ((⟨none, some "t", true⟩ : WEnv).gistId = none ∨
        (⟨none, some "t", true⟩ : WEnv).githubToken = none)) ∧
    ((handleWorkflow ⟨none, some "t", true⟩
        ⟨.ok [("temperature", .jnum 1)], .ok (.jobj [("response", .jstr "hi")]),
          true⟩ 1000 ⟨some "Explain X", some "m1", none, none⟩
        ⟨[], []⟩).2.2.configFetched = false ∧
    (handleWorkflow ⟨none, some "t", true⟩
        ⟨.ok [("temperature", .jnum 1)], .ok (.jobj [("response", .jstr "hi")]),
          true⟩ 1000 ⟨some "Explain X", some "m1", none, none⟩
        ⟨[], []⟩).2.2.modelInvokedWith =
      some ("m1", mergedParams "Explain X" (7 / 10 : ℚ) 2048 [])) :=
  ⟨⟨rfl, by decide, rfl, Or.inl rfl⟩,
    claim_C10_unset_config_skips_fetch ⟨none, some "t", true⟩
      ⟨.ok [("temperature", .jnum 1)], .ok (.jobj [("response", .jstr "hi")]),
        true⟩ 1000 ⟨some "Explain X", some "m1", none, none⟩ ⟨[], []⟩
      "Explain X" rfl (by decide) rfl (Or.inl rfl)⟩

/-- C1 counterexample: the object literal passed to `env.AI.run`
spreads `...config` after the explicit `temperature`, so a
configuration temperature (9/10) overrides the request-level
temperature (1/5) — the opposite of the claimed precedence. -/
theorem claim_C1_counterexample :
    ((handleWorkflow ⟨some "g", some "t", true⟩
        ⟨.ok [("temperature", .jnum (9 / 10 : ℚ))],
          .ok (.jobj [("response", .jstr "hello")]), true⟩ 1000
        ⟨some "Explain X", some "m1", some (1 / 5 : ℚ), none⟩
        ⟨[], []⟩).2.2.modelInvokedWith.map
      (fun mp => mapGet mp.2 "temperature")) =
      some (some (.jnum (9 / 10 : ℚ))) ∧
    (9 / 10 : ℚ) ≠ (1 / 5 : ℚ) :=
  ⟨rfl, by norm_num⟩

/-- C1 amended: the parameters passed to the model are merged field
by field, with configuration values taking precedence over explicit
request-level parameters, which in turn take precedence over the
built-in defaults; in particular a configuration temperature
overrides a request-level one. -/
theorem claim_C1_amended_config_overrides_request (env : WEnv)
    (orc : Oracle) (now : Nat) (body : WorkflowRequest) (st : WState)
    (p : String) (hp : body.prompt = some p) (hne : p ≠ "")
    (hmiss : isHit st.cache (cacheKeyOf (body.model.getD defaultModel) p) now = false) :
    ∃ P, (handleWorkflow env orc now body st).2.2.modelInvokedWith =
        some (body.model.getD defaultModel, P) ∧
      ∀ k, mapGet P k =
        (overrideGet (if envTruthy env.gistId && envTruthy env.githubToken then
            getGistConfig orc.gist else []) k <|>
          mapGet [("prompt", Json.jstr p),
            ("temperature", Json.jnum (body.temperature.getD (7 / 10 : ℚ))),
            ("max_tokens", Json.jnum (body.max_tokens.getD 2048))] k) := by
  rw [handleWorkflow_validPrompt env orc now st hp hne,
    afterValidation_miss env orc _ _ hmiss]
  refine ⟨_, missPath_modelInvokedWith env orc now _ _ _ _ _ _, ?_⟩
  intro k
  rw [mergedParams]
  exact mapGet_foldl_mapSet _ _ k

/-- C1 witness: at a concrete request the merged parameters follow
the config-over-request precedence field by field. -/
theorem claim_C1_witness :
    ((⟨some "Explain X", some "m1", some (1 / 5 : ℚ), none⟩ :
        WorkflowRequest).prompt = some "Explain X" ∧
      "Explain X" ≠ "" ∧
      isHit ([] : Cache) (cacheKeyOf "m1" "Explain X") 1000 = false) ∧
    (∃ P, (handleWorkflow ⟨some "g", some "t", true⟩
        ⟨.ok [("temperature", .jnum (9 / 10 : ℚ))],
          .ok (.jobj [("response", .jstr "hello")]), true⟩ 1000
        ⟨some "Explain X", some "m1", some (1 / 5 : ℚ), none⟩
        ⟨[], []⟩).2.2.modelInvokedWith = some ("m1", P) ∧
      ∀ k, mapGet P k =
        (overrideGet (if envTruthy (some "g") && envTruthy (some "t") then
            getGistConfig (.ok [("temperature", .jnum (9 / 10 : ℚ))]) else []) k <|>
          mapGet [("prompt", Json.jstr "Explain X"),
            ("temperature", Json.jnum (1 / 5 : ℚ)),
            ("max_tokens", Json.jnum 2048)] k)) :=
  ⟨⟨rfl, by decide, rfl⟩,
    claim_C1_amended_config_overrides_request ⟨some "g", some "t", true⟩
      ⟨.ok [("temperature", .jnum (9 / 10 : ℚ))],
        .ok (.jobj [("response", .jstr "hello")]), true⟩ 1000
      ⟨some "Explain X", some "m1", some (1 / 5 : ℚ), none⟩ ⟨[], []⟩
      "Explain X" rfl (by decide) rfl⟩

end WorkflowEngine
